import Mathlib

/-!
Verification of the Peer-Evaluation engine (`src/app.py`) against its
natural-language specification.

The relational store (Supabase) is modelled as an explicit in-memory
database value `DB`: each table is a list of rows, and a `nextId` counter
models the serial primary-key generator (every id handed out by the store
is `nextId` at insertion time, after which the counter is bumped).
Password hashing (`werkzeug.generate_password_hash` /
`check_password_hash`) is modelled by an injective tagging function:
verification succeeds exactly when the secret matches.  Wall-clock
instants (`get_est_now()`, `access_expires_at`, `expires_at`) are
modelled as naturals on one canonical clock.  Randomly minted device
tokens (`secrets.token_urlsafe`) are passed in as an explicit `fresh`
argument.
-/

namespace PeerEval

/-- Row of the `teams` table (`Team` entity, spec section 3). -/
structure Team where
  id : Nat
  name : String
  class_id : Nat
  created_at : Nat
deriving Repr, DecidableEq

/-- Row of the `classes` table (only the fields the modelled operations read). -/
structure ClassRow where
  id : Nat
  name : String
deriving Repr, DecidableEq

/-- Row of the `assignments` table (only the fields the modelled operations read). -/
structure Assignment where
  id : Nat
  class_id : Nat
deriving Repr, DecidableEq

/-- Row of the `students` table (`Student` entity, spec section 3).
`passcode` holds the stored hash.  `access_expires_at` and
`device_token` are nullable. -/
structure Student where
  id : Nat
  name : String
  student_id : String
  passcode : String
  team_id : Nat
  class_id : Nat
  is_pre_added : Bool
  access_expires_at : Option Nat
  device_token : Option String
  created_at : Nat
deriving Repr, DecidableEq

/-- Row of the `team_evaluations` table. -/
structure TeamEvaluation where
  id : Nat
  assignment_id : Nat
  evaluated_team_id : Nat
  evaluator_student_id : Nat
  team_comment : String
  team_score : Int
  created_at : Nat
deriving Repr, DecidableEq

/-- Row of the `member_evaluations` table. -/
structure MemberEvaluation where
  id : Nat
  team_evaluation_id : Nat
  evaluated_student_id : Nat
  comment : String
  score : Int
  created_at : Nat
deriving Repr, DecidableEq

/-- The whole relational store.  `nextId` models the store's serial id
generator: rows are always inserted with id `nextId`, which is then
incremented. -/
structure DB where
  classes : List ClassRow
  assignments : List Assignment
  teams : List Team
  students : List Student
  team_evaluations : List TeamEvaluation
  member_evaluations : List MemberEvaluation
  nextId : Nat
deriving Repr, DecidableEq

/-- Well-formedness of a store state: every id handed out so far, and every
foreign-key value stored in a row, is below the id generator's counter.
This is the invariant the serial generator maintains and it is what makes
freshly inserted ids collision-free. -/
def WF (db : DB) : Prop :=
  (∀ t ∈ db.teams, t.id < db.nextId) ∧
  (∀ s ∈ db.students, s.id < db.nextId ∧ s.team_id < db.nextId) ∧
  (∀ e ∈ db.team_evaluations, e.id < db.nextId) ∧
  (∀ m ∈ db.member_evaluations, m.id < db.nextId ∧ m.team_evaluation_id < db.nextId)

instance : DecidablePred WF := fun db => by
  unfold WF; infer_instance

/-- Referential integrity of the ownership edge: every `MemberEvaluation`
row references an existing owning `TeamEvaluation` row. -/
def orphanFree (db : DB) : Prop :=
  ∀ m ∈ db.member_evaluations, ∃ e ∈ db.team_evaluations, e.id = m.team_evaluation_id

instance : DecidablePred orphanFree := fun db => by
  unfold orphanFree; infer_instance

/-- Model of `werkzeug.generate_password_hash(secret, method='pbkdf2')`. -/
def hashSecret (secret : String) : String := "pbkdf2:" ++ secret

/-- Model of `werkzeug.check_password_hash(stored, secret)`: verification
succeeds exactly when the secret matches the hashed one. -/
def checkHash (stored secret : String) : Bool := stored == hashSecret secret

/-- Session role (`session['role']` in `src/app.py`). -/
inductive Role where
  | teacher
  | student
deriving Repr, DecidableEq

/-- The server-side session established by the login / select / join
handlers (`session[...]` assignments in `src/app.py`).  `class_id` and
`team_id` are optional because `select_class` copies whatever the request
supplied. -/
structure Session where
  user_id : Nat
  role : Role
  name : String
  class_id : Option Nat
  team_id : Option Nat
  created_at : Nat
deriving Repr, DecidableEq

/-! ## Evaluation Recorder (`submit_evaluation`, src/app.py lines 1013-1076) -/

/-- Payload of `POST /api/evaluations`.  Member entries carry
`(student_id, comment, score)`. -/
structure SubmitPayload where
  assignment_id : Nat
  evaluated_team_id : Nat
  team_comment : String
  team_score : Int
  member_evaluations : List (Nat × String × Int)
deriving Repr, DecidableEq

/-- Outcome of `submit_evaluation`.  `serverError` models the generic
exception path (HTTP 500), e.g. a failed `.single()` lookup. -/
inductive SubmitResult where
  | success
  | targetIsGuestBucket
  | selfEvaluationForbidden
  | serverError
deriving Repr, DecidableEq

/-- The rows of `team_evaluations` matching the natural key
`(assignment_id, evaluated_team_id, evaluator_student_id)` — the query at
src/app.py line 1041. -/
def tripleFilter (l : List TeamEvaluation) (aid tid uid : Nat) : List TeamEvaluation :=
  l.filter fun e =>
    e.assignment_id == aid && e.evaluated_team_id == tid && e.evaluator_student_id == uid

/-- The member-evaluation rows owned by the team evaluation `pid`,
projected to the payload fields `(evaluated_student_id, comment, score)`. -/
def membersProj (db : DB) (pid : Nat) : List (Nat × String × Int) :=
  (db.member_evaluations.filter fun m => m.team_evaluation_id == pid).map
    fun m => (m.evaluated_student_id, m.comment, m.score)

/-- Model of `check_evaluation_exists` (src/app.py lines 1076-1086): the
cheap existence probe used by the UI. -/
def existsCheck (db : DB) (aid tid uid : Nat) : Bool :=
  !(tripleFilter db.team_evaluations aid tid uid).isEmpty

/-- The delete phase of the replacement logic (src/app.py lines 1043-1049):
for each matching evaluation id, first delete its member evaluations, then
the team evaluation itself. -/
def deleteExisting (db : DB) (ids : List Nat) : DB :=
  match ids with
  | [] => db
  | e :: rest =>
      deleteExisting
        { db with
          member_evaluations := db.member_evaluations.filter fun m => !(m.team_evaluation_id == e)
          team_evaluations := db.team_evaluations.filter fun r => !(r.id == e) }
        rest

/-- The member-insert loop (src/app.py lines 1062-1072): one insert per
supplied member entry, each referencing the owning evaluation `pid`. -/
def insertMembers (db : DB) (pid : Nat) (mems : List (Nat × String × Int)) (now : Nat) : DB :=
  match mems with
  | [] => db
  | (sid, c, sc) :: rest =>
      insertMembers
        { db with
          member_evaluations :=
            db.member_evaluations ++ [⟨db.nextId, pid, sid, c, sc, now⟩]
          nextId := db.nextId + 1 }
        pid rest now

/-- Step 1 of `get_or_create_teacher_student_record` (src/app.py lines
1205-1217): find the class's "Teachers" team, creating it if absent. -/
def ensureTeachersTeam (db : DB) (class_id : Nat) (now : Nat) : Team × DB :=
  match db.teams.filter (fun t => t.class_id == class_id && t.name == "Teachers") with
  | t :: _ => (t, db)
  | [] =>
      let t : Team := ⟨db.nextId, "Teachers", class_id, now⟩
      (t, { db with teams := db.teams ++ [t], nextId := db.nextId + 1 })

/-- Step 2 of `get_or_create_teacher_student_record` (src/app.py lines
1219-1241): find the teacher-proxy Student row by `(team_id, name)`,
creating it (with the `'teacher'` sentinel id and dummy passcode) if
absent. -/
def ensureTeacherProxy (db : DB) (team_id class_id : Nat) (teacher_name : String)
    (now : Nat) : Student × DB :=
  match db.students.filter (fun s => s.team_id == team_id && s.name == teacher_name) with
  | s :: _ => (s, db)
  | [] =>
      let s : Student :=
        ⟨db.nextId, teacher_name, "teacher", hashSecret "teacher",
         team_id, class_id, false, none, none, now⟩
      (s, { db with students := db.students ++ [s], nextId := db.nextId + 1 })

/-- Model of `get_or_create_teacher_student_record` (src/app.py lines
1200-1241): lazily ensure a "Teachers" team exists in the class and a
teacher-proxy Student row named `teacher_name` exists inside it; return the
row (and the possibly-updated store). -/
def get_or_create_teacher_student_record (db : DB) (class_id : Nat) (teacher_name : String)
    (now : Nat) : Student × DB :=
  let (teachers_team, db1) := ensureTeachersTeam db class_id now
  ensureTeacherProxy db1 teachers_team.id class_id teacher_name now

/-- The replacement core of `submit_evaluation` (src/app.py lines
1040-1059): query the existing evaluations for the natural key, delete each
(members first), then insert the new `team_evaluations` row.  Returns the
store state right after that insert — i.e. just before the member-insert
loop — together with the new row's id and the evaluator id. -/
def submitReplace (db : DB) (p : SubmitPayload) (evaluator_id : Nat) (now : Nat) :
    DB × Nat × Nat :=
  let existingIds :=
    (tripleFilter db.team_evaluations p.assignment_id p.evaluated_team_id evaluator_id).map
      (·.id)
  let db2 := deleteExisting db existingIds
  let pid := db2.nextId
  let row : TeamEvaluation :=
    ⟨pid, p.assignment_id, p.evaluated_team_id, evaluator_id,
     p.team_comment, p.team_score, now⟩
  ({ db2 with
     team_evaluations := db2.team_evaluations ++ [row]
     nextId := pid + 1 }, pid, evaluator_id)

/-- Validation plus all store writes of `submit_evaluation` up to and
including the `team_evaluations` insert (src/app.py lines 1019-1059), i.e.
everything before the member-insert loop.  On success it returns the store
state at that point, the id of the freshly inserted team evaluation, and
the resolved evaluator id.  Error paths occur before any write, so they
leave the store untouched. -/
def submitPre (db : DB) (sess : Session) (p : SubmitPayload) (now : Nat) :
    Except SubmitResult (DB × Nat × Nat) :=
  -- `.single()` lookup of the evaluated team; errors unless exactly one row
  match db.teams.filter (fun t => t.id == p.evaluated_team_id) with
  | [team] =>
      if team.name == "Guests" then .error .targetIsGuestBucket
      else
        match sess.role with
        | .teacher =>
            -- assignment `.single()` lookup to find the class
            match db.assignments.filter (fun a => a.id == p.assignment_id) with
            | [a] =>
                let (ev, db1) := get_or_create_teacher_student_record db a.class_id sess.name now
                .ok (submitReplace db1 p ev.id now)
            | _ => .error .serverError
        | .student =>
            -- `str(session.get('team_id')) == str(evaluated_team_id)`
            if sess.team_id == some p.evaluated_team_id then
              .error .selfEvaluationForbidden
            else .ok (submitReplace db p sess.user_id now)
  | _ => .error .serverError

/-- Model of the whole `submit_evaluation` handler (src/app.py lines
1013-1076): the prefix above followed by the member-insert loop. -/
def submit (db : DB) (sess : Session) (p : SubmitPayload) (now : Nat) : SubmitResult × DB :=
  match submitPre db sess p now with
  | .error e => (e, db)
  | .ok (db3, pid, _) => (.success, insertMembers db3 pid p.member_evaluations now)

/-! ## Identity Resolver: student and guest login (src/app.py lines 247-413)
and class selection (`select_class`, lines 415-459) -/

/-- One entry of the disambiguation list returned when a name+passcode pair
matches several Student rows (src/app.py lines 291-302 and 363-375). -/
structure ClassChoice where
  student_id : Nat
  class_id : Nat
  class_name : String
  team_id : Nat
deriving Repr, DecidableEq

/-- Outcome of the login / select handlers. -/
inductive LoginOutcome where
  | badRequest
  | invalidCredentials
  | notFound
  | accessExpired
  | deviceMismatch
  | multipleClasses (choices : List ClassChoice)
  | success (sess : Session) (cookie : String)
deriving Repr, DecidableEq

/-- Builds the `classes_info` disambiguation list: one entry per matching
student whose class row resolves (src/app.py lines 292-301). -/
def classChoices (db : DB) (ms : List Student) : List ClassChoice :=
  ms.filterMap fun s =>
    match db.classes.filter (fun c => c.id == s.class_id) with
    | c :: _ => some ⟨s.id, s.class_id, c.name, s.team_id⟩
    | [] => none

/-- The access-expiry test `if student.get('access_expires_at'): ... if
now > expires_at` (src/app.py lines 308-311 etc.): true when the row has an
expiry instant that the canonical clock has passed. -/
def expiredAt (s : Student) (now : Nat) : Bool :=
  match s.access_expires_at with
  | some t => decide (now > t)
  | none => false

/-- The expiry-then-device-binding tail shared verbatim by the single-match
student path (src/app.py lines 307-334) and the single-match guest path
(lines 380-407): check `access_expires_at`, then the device-token cookie
(minting and persisting a fresh token if the row has none), then create the
session and return the cookie to set.  Python truthiness of
`student.get('device_token')` means an empty-string token behaves like an
absent one, modelled by `getD "" ≠ ""`. -/
def finalizeLogin (db : DB) (s : Student) (cookie : Option String) (now : Nat)
    (fresh : String) : LoginOutcome × DB :=
  if expiredAt s now then (.accessExpired, db)
  else finalizeDevice db s cookie now fresh
where
  finalizeDevice (db : DB) (s : Student) (cookie : Option String) (now : Nat)
      (fresh : String) : LoginOutcome × DB :=
    let d := s.device_token.getD ""
    if d ≠ "" then
      -- `if not cookie_token or cookie_token != student['device_token']`
      if cookie ≠ some d then (.deviceMismatch, db)
      else
        (.success ⟨s.id, .student, s.name, some s.class_id, some s.team_id, now⟩ d, db)
    else
      -- mint a fresh token and persist it on the student's row
      let db' :=
        { db with
          students := db.students.map fun r =>
            if r.id == s.id then { r with device_token := some fresh } else r }
      (.success ⟨s.id, .student, s.name, some s.class_id, some s.team_id, now⟩ fresh, db')

/-- The Student rows matching a student login: exact-name lookup followed by
the passcode-verification filter (src/app.py lines 278-285). -/
def matchingStudents (db : DB) (student_name passcode : String) : List Student :=
  (db.students.filter fun s => s.name == student_name).filter
    fun s => checkHash s.passcode passcode

/-- Model of the student branch of the `login` handler (src/app.py lines
276-336).  The leading guard models the dispatch condition
`elif passcode and student_name` (an empty name or passcode falls through
to the final 400 response). -/
def loginStudent (db : DB) (student_name passcode : String) (cookie : Option String)
    (now : Nat) (fresh : String) : LoginOutcome × DB :=
  if student_name = "" ∨ passcode = "" then (.badRequest, db)
  else
    match matchingStudents db student_name passcode with
    | [] => (.invalidCredentials, db)
    | [s] => finalizeLogin db s cookie now fresh
    | ms => (.multipleClasses (classChoices db ms), db)

/-- The Student rows matching a guest login: exact-name lookup restricted to
guest rows (`student_id` is the `'non-student'` or empty sentinel) whose
passcode verifies (src/app.py lines 349-358). -/
def matchingGuests (db : DB) (name passcode : String) : List Student :=
  (db.students.filter fun s => s.name == name).filter
    fun s => (s.student_id == "non-student" || s.student_id == "") &&
      checkHash s.passcode passcode

/-- Model of the guest branch of the `login` handler (src/app.py lines
338-407). -/
def loginGuest (db : DB) (name passcode : String) (cookie : Option String)
    (now : Nat) (fresh : String) : LoginOutcome × DB :=
  if name = "" then (.badRequest, db)
  else if passcode = "" then (.badRequest, db)
  else
    match matchingGuests db name passcode with
    | [] => (.invalidCredentials, db)
    | [s] => finalizeLogin db s cookie now fresh
    | ms => (.multipleClasses (classChoices db ms), db)

/-- Payload of `POST /select-class` (src/app.py lines 419-422); every field
is whatever JSON the client sent, possibly absent. -/
structure SelectPayload where
  student_id : Option Nat
  class_id : Option Nat
  team_id : Option Nat
deriving Repr, DecidableEq

/-- Model of the `select_class` handler (src/app.py lines 415-459): looks
the student up by id, re-validates `access_expires_at` only, reuses the
stored device token (minting one only if absent — the cookie is never
compared), and establishes a session whose `class_id` and `team_id` are
copied verbatim from the request.  `if not student_id` is Python
truthiness: an absent or zero id is rejected with a 400. -/
def select_class (db : DB) (p : SelectPayload) (now : Nat) (fresh : String) :
    LoginOutcome × DB :=
  match p.student_id with
  | none => (.badRequest, db)
  | some i =>
      if i = 0 then (.badRequest, db)
      else
        match db.students.filter (fun s => s.id == i) with
        | [] => (.notFound, db)
        | s :: _ =>
            if expiredAt s now then (.accessExpired, db)
            else selectFinish db s p now fresh
where
  selectFinish (db : DB) (s : Student) (p : SelectPayload) (now : Nat) (fresh : String) :
      LoginOutcome × DB :=
    let d := s.device_token.getD ""
    let (tok, db') :=
      if d ≠ "" then (d, db)
      else
        (fresh,
         { db with
           students := db.students.map fun r =>
             if r.id == s.id then { r with device_token := some fresh } else r })
    (.success ⟨s.id, .student, s.name, p.class_id, p.team_id, now⟩ tok, db')

/-! ## Name Disambiguator (`get_unique_student_name`, src/app.py lines 1183-1198) -/

/-- Whether a display name is already taken inside a team: the emptiness
check on `students` filtered by `(team_id, name)` used at src/app.py lines
1186 and 1195. -/
def nameTaken (db : DB) (team_id : Nat) (nm : String) : Bool :=
  !(db.students.filter fun s => s.team_id == team_id && s.name == nm).isEmpty

/-- The probe candidate `f"{original_name} ({counter})"`. -/
def probeSuffix (base : String) (counter : Nat) : String :=
  base ++ (" (" ++ (toString counter ++ ")"))

/-- The `while True` probe loop of `get_unique_student_name` (src/app.py
lines 1192-1198).  `fuel` bounds the number of iterations; `none` models a
loop that has not terminated within `fuel` probes (impossible in practice
once `fuel` exceeds the number of students in the team). -/
def probeUnique (db : DB) (team_id : Nat) (base : String) (counter fuel : Nat) :
    Option String :=
  match fuel with
  | 0 => none
  | fuel + 1 =>
      let cand := probeSuffix base counter
      if nameTaken db team_id cand then probeUnique db team_id base (counter + 1) fuel
      else some cand

/-- Model of `get_unique_student_name(original_name, team_id)` (src/app.py
lines 1183-1198): return the name unchanged when free, else probe
`"name (2)"`, `"name (3)"`, … until an unused candidate is found. -/
def get_unique_student_name (db : DB) (original_name : String) (team_id : Nat)
    (fuel : Nat) : Option String :=
  if nameTaken db team_id original_name then probeUnique db team_id original_name 2 fuel
  else some original_name

/-! ## Canonical-time parsing (`parse_iso_datetime`, src/app.py lines 82-133)

The helper wraps CPython 3.9's `datetime.fromisoformat` in a repair layer
for `Z` suffixes and non-standard fractional-second precision.
`fromisoformat39` models the 3.9 stdlib acceptance grammar
(`YYYY-MM-DD[<sep>HH[:MM[:SS[.fff[fff]]]][(+|-)HH:MM[:SS[.ffffff]]]]`,
fraction of exactly 3 or 6 digits, no `Z`, field ranges validated by the
`datetime` constructor); the claims only concern whether parsing succeeds,
so the model returns acceptance rather than a datetime value. -/

/-- Numeric value of a digit character. -/
def digitVal (c : Char) : Nat := c.toNat - '0'.toNat

/-- Two-digit field value. -/
def nat2 (a b : Char) : Nat := 10 * digitVal a + digitVal b

/-- Proleptic-Gregorian leap years, as `datetime` uses. -/
def isLeap (y : Nat) : Bool := (y % 4 == 0 && y % 100 != 0) || y % 400 == 0

/-- Days in a month, as validated by the `datetime` constructor. -/
def daysInMonth (y m : Nat) : Nat :=
  if m == 2 then (if isLeap y then 29 else 28)
  else if m == 4 || m == 6 || m == 9 || m == 11 then 30
  else 31

/-- Python `str.find(c)`: index of the first occurrence. -/
def pyFind (cs : List Char) (c : Char) : Option Nat := cs.findIdx? (· == c)

/-- Python `str.rfind(c)`: index of the last occurrence. -/
def pyRFind (cs : List Char) (c : Char) : Option Nat :=
  match cs.reverse.findIdx? (· == c) with
  | some i => some (cs.length - 1 - i)
  | none => none

/-- Python `str.find(c, start)`. -/
def pyFindFrom (cs : List Char) (c : Char) (start : Nat) : Option Nat :=
  ((cs.drop start).findIdx? (· == c)).map (· + start)

/-- A legal 3.9 fractional-second field: exactly 3 or 6 digits. -/
def fracOK (l : List Char) : Bool :=
  (l.length == 3 || l.length == 6) && l.all Char.isDigit

/-- Model of `datetime._parse_hh_mm_ss_ff` (CPython 3.9): parse
`HH[:MM[:SS[.fff[fff]]]]` with two-digit fields; returns the components,
or `none` where the stdlib raises. -/
def parseHMSF (ts : List Char) : Option (Nat × Nat × Nat) :=
  match ts with
  | [h1, h2] =>
      if h1.isDigit && h2.isDigit then some (nat2 h1 h2, 0, 0) else none
  | h1 :: h2 :: ':' :: rest =>
      if h1.isDigit && h2.isDigit then
        match rest with
        | [m1, m2] =>
            if m1.isDigit && m2.isDigit then some (nat2 h1 h2, nat2 m1 m2, 0) else none
        | m1 :: m2 :: ':' :: rest2 =>
            if m1.isDigit && m2.isDigit then
              match rest2 with
              | s1 :: s2 :: rest3 =>
                  if s1.isDigit && s2.isDigit then
                    match rest3 with
                    | [] => some (nat2 h1 h2, nat2 m1 m2, nat2 s1 s2)
                    | '.' :: frac =>
                        if fracOK frac then some (nat2 h1 h2, nat2 m1 m2, nat2 s1 s2)
                        else none
                    | _ => none
                  else none
              | _ => none
            else none
        | _ => none
      else none
  | _ => none

/-- Wall-clock time components pass the `datetime` constructor's range
checks. -/
def timeCompsOK (ts : List Char) : Bool :=
  match parseHMSF ts with
  | some (h, m, s) => decide (h ≤ 23) && decide (m ≤ 59) && decide (s ≤ 59)
  | none => false

/-- A UTC-offset field parses and yields a `timezone`-legal offset
(strictly less than 24 hours). -/
def tzCompsOK (ts : List Char) : Bool :=
  match parseHMSF ts with
  | some (h, _, _) => decide (h ≤ 23)
  | none => false

/-- Model of `datetime._parse_isoformat_time` (CPython 3.9): the offset
starts at the first `-` if any, else the first `+`; the offset text must be
5, 8 or 15 characters long. -/
def parseTimeOK (ts : List Char) : Bool :=
  let tzpos : Option Nat :=
    match pyFind ts '-' with
    | some i => some i
    | none => pyFind ts '+'
  match tzpos with
  | none => timeCompsOK ts
  | some i =>
      let timestr := ts.take i
      let tzstr := ts.drop (i + 1)
      timeCompsOK timestr &&
        (tzstr.length == 5 || tzstr.length == 8 || tzstr.length == 15) &&
        tzCompsOK tzstr

/-- Acceptance grammar of CPython 3.9 `datetime.fromisoformat`: a
fixed-width `YYYY-MM-DD` date (validated), optionally followed by a
one-character separator and a time string. -/
def fromisoformat39 (cs : List Char) : Bool :=
  match cs with
  | y1 :: y2 :: y3 :: y4 :: '-' :: m1 :: m2 :: '-' :: d1 :: d2 :: rest =>
      let y := 1000 * digitVal y1 + 100 * digitVal y2 + 10 * digitVal y3 + digitVal y4
      let mo := nat2 m1 m2
      let dy := nat2 d1 d2
      let okDate :=
        [y1, y2, y3, y4, m1, m2, d1, d2].all Char.isDigit &&
        decide (1 ≤ y) && decide (1 ≤ mo) && decide (mo ≤ 12) &&
        decide (1 ≤ dy) && decide (dy ≤ daysInMonth y mo)
      match rest with
      | [] => okDate
      | _ :: timestr => okDate && parseTimeOK timestr
  | _ => false

/-- Python `str.replace('Z', '+00:00')` (replaces every occurrence). -/
def replaceZ (cs : List Char) : List Char :=
  cs.flatMap fun c => if c == 'Z' then "+00:00".data else [c]

/-- Python `list.split('.')` on a character list. -/
def splitDot (cs : List Char) : List (List Char) := cs.splitOn '.'

/-- Result of `parse_iso_datetime`: the function returns `None` on empty
input, a parsed datetime otherwise (`ok` carries the string finally handed
to `fromisoformat`), or raises `ValueError` (`err`). -/
inductive ParseOutcome where
  | isNone
  | ok (normalized : String)
  | err
deriving Repr, DecidableEq

/-- Model of `parse_iso_datetime` (src/app.py lines 82-133): try
`fromisoformat` directly; on failure, rewrite a trailing `Z` to `+00:00`,
and when the string contains a fractional part and a recognisable offset
position, re-pad the fraction to 6 digits and retry; every other fallback
path re-raises `ValueError`. -/
def parse_iso_datetime (date_str : String) : ParseOutcome :=
  if date_str = "" then .isNone
  else if fromisoformat39 date_str.data then .ok date_str
  else
    let cs0 := date_str.data
    let cs := if cs0.getLast? == some 'Z' then replaceZ cs0 else cs0
    if cs.contains '.' then
      let plus_idx := pyFind cs '+'
      let t_idx := pyFind cs 'T'
      let minus_idx :=
        match t_idx with
        | some t => pyFindFrom cs '-' t
        | none => pyRFind cs '-'
      let tz_idx : Option Nat :=
        match plus_idx with
        | some p => some p
        | none =>
            match minus_idx with
            | some m => if cs.length - m ≤ 6 then some m else none
            | none => none
      match tz_idx with
      | some ti =>
          let main_part := cs.take ti
          let tz_part := cs.drop ti
          if main_part.contains '.' then
            match splitDot main_part with
            | [dt_part, us_part] =>
                let us :=
                  if us_part.length < 6 then us_part ++ List.replicate (6 - us_part.length) '0'
                  else us_part.take 6
                let full := dt_part ++ ('.' :: (us ++ tz_part))
                if fromisoformat39 full then .ok (String.mk full) else .err
            | _ => .err
          else .err
      | none => .err
    else .err

/-! ## Claim C10 -/

/-- Claim C10 (code bug): the spec demands that every common ISO-8601
variant — optional fractional seconds of any precision, `Z` or numeric
offset, offset or naive — parses without error, but `parse_iso_datetime`
raises `ValueError` on a `Z`-suffixed timestamp without fractional seconds
(the fallback only repairs strings containing a `.`) and on a naive
timestamp with non-standard fractional precision (no offset position is
found, so the fallback re-raises).  The remaining conjuncts show the
variants that do parse, so the failures are not an artefact of the model. -/
theorem parse_iso_datetime_variants :
    parse_iso_datetime "2025-01-02T03:04:05Z" = .err ∧
    parse_iso_datetime "2025-01-02T03:04:05.1" = .err ∧
    parse_iso_datetime "2025-01-02T03:04:05" = .ok "2025-01-02T03:04:05" ∧
    parse_iso_datetime "2025-01-02T03:04:05.123" = .ok "2025-01-02T03:04:05.123" ∧
    parse_iso_datetime "2025-01-02T03:04:05.12Z" = .ok "2025-01-02T03:04:05.120000+00:00" ∧
    parse_iso_datetime "2025-01-02T03:04:05.1234567Z" = .ok "2025-01-02T03:04:05.123456+00:00" ∧
    parse_iso_datetime "2025-01-02T03:04:05.123456+05:00" =
      .ok "2025-01-02T03:04:05.123456+05:00" ∧
    parse_iso_datetime "2025-01-02T03:04:05-05:00" = .ok "2025-01-02T03:04:05-05:00" := by
  decide

/-! ## Claim C7 -/

/-- Claim C7 (confirmed): a submit whose `evaluated_team_id` resolves to a
team named "Guests" is rejected with `TargetIsGuestBucket` and the store is
left untouched — no write happens, so the "Guests" team can never become
the target of a `TeamEvaluation`. -/
theorem submit_rejects_guests_target (db : DB) (sess : Session) (p : SubmitPayload)
    (now : Nat) (t : Team)
    (hl : db.teams.filter (fun tm => tm.id == p.evaluated_team_id) = [t])
    (hn : t.name = "Guests") :
    submit db sess p now = (.targetIsGuestBucket, db) := by
  unfold submit submitPre
  rw [hl]
  simp [hn]

/-- Concrete run of `submit_rejects_guests_target`. -/
theorem submit_rejects_guests_target_witness :
    submit ⟨[⟨1, "A"⟩], [], [⟨2, "Guests", 1, 0⟩], [], [], [], 10⟩
        ⟨5, .student, "S", some 1, some 3, 0⟩ ⟨7, 2, "c", 3, []⟩ 0 =
      (.targetIsGuestBucket, ⟨[⟨1, "A"⟩], [], [⟨2, "Guests", 1, 0⟩], [], [], [], 10⟩) :=
  submit_rejects_guests_target _ _ _ _ ⟨2, "Guests", 1, 0⟩ (by decide) rfl

/-! ## Claim C6 -/

/-- Store for the C6 counterexample: class 1 owns only the "Guests" team
(id 2), and the acting student is a guest whose own team is that team. -/
def dbSelfGuest : DB := ⟨[⟨1, "A"⟩], [], [⟨2, "Guests", 1, 0⟩], [], [], [], 10⟩

/-- Claim C6 counterexample: a guest evaluator whose own team is the
"Guests" team submits against their own team; the claim says this "always
fails with SelfEvaluationForbidden", but the code rejects it earlier with
`TargetIsGuestBucket` (the Guests check at src/app.py lines 1020-1023 runs
before the self-evaluation check at lines 1036-1038). -/
theorem submit_self_evaluation_cex :
    (submit dbSelfGuest ⟨5, .student, "G", some 1, some 2, 0⟩ ⟨7, 2, "c", 3, []⟩ 0).1 =
      .targetIsGuestBucket ∧
    (submit dbSelfGuest ⟨5, .student, "G", some 1, some 2, 0⟩ ⟨7, 2, "c", 3, []⟩ 0).1 ≠
      .selfEvaluationForbidden := by
  decide

/-- Claim C6 as amended (proved): for a student principal, submitting
against the own team fails with `SelfEvaluationForbidden` and records
nothing, provided that team resolves and is not the "Guests" team (in
which case `TargetIsGuestBucket` takes precedence, as the counterexample
shows); teacher principals never receive `SelfEvaluationForbidden`. -/
theorem submit_self_evaluation_ban (db : DB) (sess : Session) (p : SubmitPayload)
    (now : Nat) (t : Team) :
    (sess.role = .student →
      db.teams.filter (fun tm => tm.id == p.evaluated_team_id) = [t] →
      t.name ≠ "Guests" →
      sess.team_id = some p.evaluated_team_id →
      submit db sess p now = (.selfEvaluationForbidden, db)) ∧
    (sess.role = .teacher → (submit db sess p now).1 ≠ .selfEvaluationForbidden) := by
  constructor
  · intro hrole hl hn hself
    unfold submit submitPre
    rw [hl]
    have hnb : (t.name == "Guests") = false := by
      simp [hn]
    simp [hnb, hrole, hself]
  · intro hrole
    have hpre : submitPre db sess p now ≠ .error .selfEvaluationForbidden := by
      unfold submitPre
      split
      · split
        · simp
        · rw [hrole]
          split
          · split <;> simp
          · rename_i hcontra
            exact absurd hcontra (by simp)
      · simp
    unfold submit
    split
    · rename_i e heq
      intro hc
      simp only [] at hc
      rw [hc] at heq
      exact hpre heq
    · simp

/-- Concrete run of both halves of `submit_self_evaluation_ban`. -/
theorem submit_self_evaluation_ban_witness :
    submit ⟨[⟨1, "A"⟩], [], [⟨3, "TeamB", 1, 0⟩], [], [], [], 10⟩
        ⟨5, .student, "S", some 1, some 3, 0⟩ ⟨7, 3, "c", 3, []⟩ 0 =
      (.selfEvaluationForbidden, ⟨[⟨1, "A"⟩], [], [⟨3, "TeamB", 1, 0⟩], [], [], [], 10⟩) ∧
    (submit ⟨[⟨1, "A"⟩], [], [⟨3, "TeamB", 1, 0⟩], [], [], [], 10⟩
        ⟨5, .teacher, "T", none, none, 0⟩ ⟨7, 3, "c", 3, []⟩ 0).1 ≠
      .selfEvaluationForbidden :=
  ⟨(submit_self_evaluation_ban _ _ _ _ ⟨3, "TeamB", 1, 0⟩).1 rfl (by decide) (by decide) rfl,
   (submit_self_evaluation_ban _ _ _ _ ⟨3, "TeamB", 1, 0⟩).2 rfl⟩

/-! ## Claim C8 -/

/-- The probe loop only ever answers with a name that is free in the team. -/
theorem probeUnique_not_taken (db : DB) (tid : Nat) (base : String)
    (counter fuel : Nat) (s : String)
    (h : probeUnique db tid base counter fuel = some s) :
    nameTaken db tid s = false := by
  induction fuel generalizing counter with
  | zero => simp [probeUnique] at h
  | succ n ih =>
      simp only [probeUnique] at h
      cases hnt : nameTaken db tid (probeSuffix base counter) with
      | true =>
          rw [hnt] at h
          simp at h
          exact ih _ h
      | false =>
          rw [hnt] at h
          simp at h
          rw [← h]
          exact hnt

/-- Store with an empty team 1 for the C8 counterexample. -/
def dbAlloc : DB := ⟨[], [], [⟨1, "T1", 1, 0⟩], [], [], [], 5⟩

/-- Same store after the name "N" has been inserted into team 1. -/
def dbAllocAfter : DB :=
  ⟨[], [], [⟨1, "T1", 1, 0⟩], [⟨2, "N", "sid", "pc", 1, 1, false, none, none, 0⟩], [], [], 5⟩

/-- Claim C8 counterexample: `get_unique_student_name` only queries — it
reserves nothing — so two successive calls with no intervening insert both
return the base name unchanged: they return the same value and the second
is not "N (2)", contradicting the claim that two calls in sequence never
return the same value and that the second returns "N (2)". -/
theorem allocate_unique_names_cex :
    get_unique_student_name dbAlloc "N" 1 5 = some "N" ∧
    get_unique_student_name dbAlloc "N" 1 5 = get_unique_student_name dbAlloc "N" 1 5 ∧
    get_unique_student_name dbAlloc "N" 1 5 ≠ some "N (2)" := by
  decide

/-- Claim C8 as amended (proved): `allocate(N, T)` returns `N` unchanged
when `N` is absent from `T`, and never returns a name already present in
`T`; consequently when the first call's result has been inserted into the
team before the second call (as every caller in the source does), the two
calls return different values, and the second returns `"N (2)"` whenever
that candidate was still free.  (`fuel` bounds the source's unbounded
`while True` probe loop; `some` means the loop terminated.) -/
theorem allocate_unique_names (db db' : DB) (tid : Nat) (base n1 n2 s : String)
    (fuel fuel' : Nat) :
    (nameTaken db tid base = false →
      get_unique_student_name db base tid fuel = some base) ∧
    (get_unique_student_name db base tid fuel = some s → nameTaken db tid s = false) ∧
    (get_unique_student_name db base tid fuel = some n1 →
      nameTaken db' tid n1 = true →
      get_unique_student_name db' base tid fuel' = some n2 →
      n2 ≠ n1) ∧
    (nameTaken db' tid base = true →
      nameTaken db' tid (base ++ " (2)") = false →
      get_unique_student_name db' base tid (fuel' + 1) = some (base ++ " (2)")) := by
  have notTaken : ∀ (d : DB) (f : Nat) (r : String),
      get_unique_student_name d base tid f = some r → nameTaken d tid r = false := by
    intro d f r h
    unfold get_unique_student_name at h
    cases hb : nameTaken d tid base with
    | true =>
        rw [hb] at h
        simp at h
        exact probeUnique_not_taken d tid base 2 f r h
    | false =>
        rw [hb] at h
        simp at h
        rw [← h]
        exact hb
  refine ⟨?_, notTaken db fuel s, ?_, ?_⟩
  · intro hfree
    unfold get_unique_student_name
    rw [hfree]
    simp
  · intro _ htaken h2 heq
    have := notTaken db' fuel' n2 h2
    rw [heq] at this
    rw [htaken] at this
    cases this
  · intro htaken hfree
    unfold get_unique_student_name
    rw [htaken]
    simp only [probeUnique]
    rw [show probeSuffix base 2 = base ++ " (2)" from rfl, hfree]
    simp

/-- Concrete run of `allocate_unique_names`: on the empty team the name is
returned unchanged; after inserting "N", the next allocation of "N" yields
"N (2)", which differs from "N". -/
theorem allocate_unique_names_witness :
    get_unique_student_name dbAlloc "N" 1 3 = some "N" ∧
    get_unique_student_name dbAllocAfter "N" 1 3 = some ("N" ++ " (2)") ∧
    ("N (2)" : String) ≠ "N" :=
  ⟨(allocate_unique_names dbAlloc dbAllocAfter 1 "N" "N" "N" "N" 3 3).1 (by decide),
   (allocate_unique_names dbAlloc dbAllocAfter 1 "N" "N" "N" "N" 3 2).2.2.2
     (by decide) (by decide),
   (allocate_unique_names dbAlloc dbAllocAfter 1 "N" "N" "N (2)" "N" 3 3).2.2.1
     (by decide) (by decide) (by decide)⟩

/-! ## Claims C2, C3, C4: device binding, disambiguation, class selection -/

/-- An account whose expiry instants all lie at or after `now` is not
expired. -/
theorem expiredAt_false (s : Student) (now : Nat)
    (hexp : ∀ t, s.access_expires_at = some t → now ≤ t) :
    expiredAt s now = false := by
  unfold expiredAt
  cases hsa : s.access_expires_at with
  | none => rfl
  | some t => simpa using hexp t hsa

/-- When the uniquely resolved student is device-locked and unexpired, a
missing or different cookie fails with a device mismatch (src/app.py lines
307-317 / 380-390). -/
theorem finalizeLogin_mismatch (db : DB) (s : Student) (c : Option String) (now : Nat)
    (fresh d : String)
    (hexp : ∀ t, s.access_expires_at = some t → now ≤ t)
    (hd : s.device_token = some d) (hdne : d ≠ "") (hc : c ≠ some d) :
    finalizeLogin db s c now fresh = (.deviceMismatch, db) := by
  have hdev : finalizeLogin.finalizeDevice db s c now fresh = (.deviceMismatch, db) := by
    unfold finalizeLogin.finalizeDevice
    rw [hd]
    simp only [Option.getD_some]
    rw [if_pos hdne, if_pos hc]
  unfold finalizeLogin
  simp only [expiredAt_false s now hexp, Bool.false_eq_true, if_false]
  exact hdev

/-- When the uniquely resolved student is unexpired and has no device token
yet, the login mints the supplied fresh token, persists it on the student's
row, creates the session and returns the token as the cookie (src/app.py
lines 318-334 / 391-407). -/
theorem finalizeLogin_mint (db : DB) (s : Student) (c : Option String) (now : Nat)
    (fresh : String)
    (hexp : ∀ t, s.access_expires_at = some t → now ≤ t)
    (hd : s.device_token = none) :
    finalizeLogin db s c now fresh =
      (.success ⟨s.id, .student, s.name, some s.class_id, some s.team_id, now⟩ fresh,
       { db with
         students := db.students.map fun r =>
           if r.id == s.id then { r with device_token := some fresh } else r }) := by
  have hdev : finalizeLogin.finalizeDevice db s c now fresh =
      (.success ⟨s.id, .student, s.name, some s.class_id, some s.team_id, now⟩ fresh,
       { db with
         students := db.students.map fun r =>
           if r.id == s.id then { r with device_token := some fresh } else r }) := by
    unfold finalizeLogin.finalizeDevice
    rw [hd]
    simp
  unfold finalizeLogin
  simp only [expiredAt_false s now hexp, Bool.false_eq_true, if_false]
  exact hdev

/-- Store for the C2 counterexample: "Ann" is device-locked to "D" but her
access expired at time 50. -/
def dbExpired : DB :=
  ⟨[⟨1, "A"⟩], [], [⟨3, "T1", 1, 0⟩],
   [⟨5, "Ann", "S9", hashSecret "pw", 3, 1, true, some 50, some "D", 0⟩], [], [], 10⟩

/-- Store for the C2/C3 counterexamples: "Mike Lee" exists in two classes
with the same passcode, both rows device-locked. -/
def dbMulti : DB :=
  ⟨[⟨1, "A"⟩, ⟨2, "B"⟩], [], [⟨3, "T1", 1, 0⟩, ⟨4, "T2", 2, 0⟩],
   [⟨5, "Mike Lee", "S123", hashSecret "S123", 3, 1, true, none, some "D1", 0⟩,
    ⟨6, "Mike Lee", "S123", hashSecret "S123", 4, 2, true, none, some "D2", 0⟩],
   [], [], 10⟩

/-- Claim C2 counterexample: with a correct passcode and a wrong cookie the
login does not always fail with DeviceMismatch — an expired account fails
with AccessExpired (the expiry check precedes the device check), and a
name+passcode matching two device-locked rows returns the disambiguation
list without any device check at all. -/
theorem login_device_binding_cex :
    loginStudent dbExpired "Ann" "pw" (some "WRONG") 100 "fresh" =
      (.accessExpired, dbExpired) ∧
    (.accessExpired : LoginOutcome) ≠ .deviceMismatch ∧
    loginStudent dbMulti "Mike Lee" "S123" (some "WRONG") 0 "fresh" =
      (.multipleClasses [⟨5, 1, "A", 3⟩, ⟨6, 2, "B", 4⟩], dbMulti) := by
  decide

/-- Claim C2 as amended (proved): on both the student and the guest login
paths, when the name+passcode pair uniquely resolves to a student S whose
access has not expired, then (a) if S is device-locked to D, presenting a
cookie different from D — or no cookie — fails with DeviceMismatch even
though the passcode verified, and (b) if S has no device token yet, the
login mints the fresh token, persists it on S's row and returns it as the
cookie.  (If the pair matches several rows the code returns the
disambiguation list before any device check, and an expired account fails
with AccessExpired first — see the counterexample.) -/
theorem login_device_binding (db : DB) (n p : String) (c : Option String) (now : Nat)
    (fresh : String) (s : Student) (d : String) :
    (matchingStudents db n p = [s] → n ≠ "" → p ≠ "" →
      (∀ t, s.access_expires_at = some t → now ≤ t) →
      s.device_token = some d → d ≠ "" → c ≠ some d →
      loginStudent db n p c now fresh = (.deviceMismatch, db)) ∧
    (matchingGuests db n p = [s] → n ≠ "" → p ≠ "" →
      (∀ t, s.access_expires_at = some t → now ≤ t) →
      s.device_token = some d → d ≠ "" → c ≠ some d →
      loginGuest db n p c now fresh = (.deviceMismatch, db)) ∧
    (matchingStudents db n p = [s] → n ≠ "" → p ≠ "" →
      (∀ t, s.access_expires_at = some t → now ≤ t) →
      s.device_token = none →
      loginStudent db n p c now fresh =
        (.success ⟨s.id, .student, s.name, some s.class_id, some s.team_id, now⟩ fresh,
         { db with
           students := db.students.map fun r =>
             if r.id == s.id then { r with device_token := some fresh } else r })) ∧
    (matchingGuests db n p = [s] → n ≠ "" → p ≠ "" →
      (∀ t, s.access_expires_at = some t → now ≤ t) →
      s.device_token = none →
      loginGuest db n p c now fresh =
        (.success ⟨s.id, .student, s.name, some s.class_id, some s.team_id, now⟩ fresh,
         { db with
           students := db.students.map fun r =>
             if r.id == s.id then { r with device_token := some fresh } else r })) := by
  refine ⟨?_, ?_, ?_, ?_⟩
  · intro hm hn hp hexp hd hdne hc
    unfold loginStudent
    rw [if_neg (by simp [hn, hp])]
    rw [hm]
    exact finalizeLogin_mismatch db s c now fresh d hexp hd hdne hc
  · intro hm hn hp hexp hd hdne hc
    unfold loginGuest
    rw [if_neg hn, if_neg hp]
    rw [hm]
    exact finalizeLogin_mismatch db s c now fresh d hexp hd hdne hc
  · intro hm hn hp hexp hd
    unfold loginStudent
    rw [if_neg (by simp [hn, hp])]
    rw [hm]
    exact finalizeLogin_mint db s c now fresh hexp hd
  · intro hm hn hp hexp hd
    unfold loginGuest
    rw [if_neg hn, if_neg hp]
    rw [hm]
    exact finalizeLogin_mint db s c now fresh hexp hd

/-- Store for the C2 witness: "Bob" is device-locked to "D9"; "Gia" is an
unlocked guest row. -/
def dbLock : DB :=
  ⟨[⟨1, "A"⟩], [], [⟨3, "T1", 1, 0⟩],
   [⟨5, "Bob", "S1", hashSecret "pw", 3, 1, true, none, some "D9", 0⟩,
    ⟨6, "Gia", "non-student", hashSecret "A", 3, 1, false, none, none, 0⟩],
   [], [], 10⟩

/-- Concrete run of `login_device_binding`: a wrong cookie is rejected for
the locked student, and a guest login with no token yet mints and persists
the fresh one. -/
theorem login_device_binding_witness :
    loginStudent dbLock "Bob" "pw" (some "WRONG") 0 "NEW" = (.deviceMismatch, dbLock) ∧
    loginGuest dbLock "Gia" "A" none 0 "NEW" =
      (.success ⟨6, .student, "Gia", some 1, some 3, 0⟩ "NEW",
       { dbLock with
         students := dbLock.students.map fun r =>
           if r.id == 6 then { r with device_token := some "NEW" } else r }) :=
  ⟨(login_device_binding dbLock "Bob" "pw" (some "WRONG") 0 "NEW"
      ⟨5, "Bob", "S1", hashSecret "pw", 3, 1, true, none, some "D9", 0⟩ "D9").1
    (by decide) (by decide) (by decide) (by intro t ht; simp at ht) rfl (by decide) (by decide),
   (login_device_binding dbLock "Gia" "A" none 0 "NEW"
      ⟨6, "Gia", "non-student", hashSecret "A", 3, 1, false, none, none, 0⟩ "").2.2.2
    (by decide) (by decide) (by decide) (by intro t ht; simp at ht) rfl⟩

/-- Claim C3 (code bug): the claim says device binding is already checked
and locked when the disambiguation set is returned.  In the code the
multiple-match branch returns the candidate list before any device check,
and `select_class` (whose comment says "Device token was already verified
during initial login") never compares the cookie either — so a session is
established although the presented cookie matches neither stored device
token.  The disambiguation payload itself and the re-validation of
`access_expires_at` at select time match the claim. -/
theorem select_class_skips_device_check :
    loginStudent dbMulti "Mike Lee" "S123" none 0 "fresh" =
      (.multipleClasses [⟨5, 1, "A", 3⟩, ⟨6, 2, "B", 4⟩], dbMulti) ∧
    select_class dbMulti ⟨some 5, some 1, some 3⟩ 0 "fresh" =
      (.success ⟨5, .student, "Mike Lee", some 1, some 3, 0⟩ "D1", dbMulti) := by
  decide

/-- Claim C4 (confirmed): `select_class` verifies neither passcode nor
device cookie (its model does not even take them as inputs): for any
supplied non-zero student id it fails with NotFound when no row has that
id, with AccessExpired when the row's `access_expires_at` has passed, and
otherwise establishes a student session for that account whose `class_id`
and `team_id` are copied verbatim from the request. -/
theorem select_class_no_credentials (db : DB) (p : SelectPayload) (now : Nat)
    (fresh : String) (i : Nat) (s : Student) (rest : List Student) :
    (p.student_id = some i → i ≠ 0 → db.students.filter (fun r => r.id == i) = [] →
      select_class db p now fresh = (.notFound, db)) ∧
    (p.student_id = some i → i ≠ 0 → db.students.filter (fun r => r.id == i) = s :: rest →
      ∀ t, s.access_expires_at = some t → now > t →
      select_class db p now fresh = (.accessExpired, db)) ∧
    (p.student_id = some i → i ≠ 0 → db.students.filter (fun r => r.id == i) = s :: rest →
      (∀ t, s.access_expires_at = some t → now ≤ t) →
      ∃ tok db', select_class db p now fresh =
        (.success ⟨s.id, .student, s.name, p.class_id, p.team_id, now⟩ tok, db')) := by
  refine ⟨?_, ?_, ?_⟩
  · intro h1 hi hf
    unfold select_class
    rw [h1]
    simp only []
    rw [if_neg hi, hf]
  · intro h1 hi hf t ht hgt
    unfold select_class
    rw [h1]
    simp only []
    rw [if_neg hi, hf]
    have hex : expiredAt s now = true := by
      unfold expiredAt
      rw [ht]
      simpa using hgt
    simp [hex]
  · intro h1 hi hf hexp
    unfold select_class
    rw [h1]
    simp only []
    rw [if_neg hi, hf]
    simp only [expiredAt_false s now hexp, Bool.false_eq_true, if_false]
    unfold select_class.selectFinish
    exact ⟨_, _, rfl⟩

/-- Concrete run of `select_class_no_credentials`: an unknown id is
NotFound, an expired row is AccessExpired, and a valid id establishes a
session with the request's arbitrary class and team ids. -/
theorem select_class_no_credentials_witness :
    select_class dbMulti ⟨some 77, none, none⟩ 0 "f" = (.notFound, dbMulti) ∧
    select_class dbExpired ⟨some 5, some 1, some 3⟩ 100 "f" = (.accessExpired, dbExpired) ∧
    (∃ tok db', select_class dbMulti ⟨some 6, some 42, some 99⟩ 7 "f" =
      (.success ⟨6, .student, "Mike Lee", some 42, some 99, 7⟩ tok, db')) :=
  ⟨(select_class_no_credentials dbMulti ⟨some 77, none, none⟩ 0 "f" 77
      ⟨0, "", "", "", 0, 0, false, none, none, 0⟩ []).1 rfl (by decide) (by decide),
   (select_class_no_credentials dbExpired ⟨some 5, some 1, some 3⟩ 100 "f" 5
      ⟨5, "Ann", "S9", hashSecret "pw", 3, 1, true, some 50, some "D", 0⟩ []).2.1
     rfl (by decide) (by decide) 50 rfl (by decide),
   (select_class_no_credentials dbMulti ⟨some 6, some 42, some 99⟩ 7 "f" 6
      ⟨6, "Mike Lee", "S123", hashSecret "S123", 4, 2, true, none, some "D2", 0⟩ []).2.2
     rfl (by decide) (by decide) (by intro t ht; simp at ht)⟩

/-! ## Claim C9 -/

/-- Claim C9 (confirmed): the teacher-as-evaluator bootstrap is idempotent.
Starting from a well-formed store whose class `cid` has no "Teachers" team
yet, the first call creates exactly one "Teachers" team in the class and
exactly one proxy Student row carrying the teacher's display name inside
it, and a second call (at any later time) returns the same row and leaves
the store completely unchanged — no duplicate team, no duplicate proxy. -/
theorem teacher_bootstrap_idempotent (db : DB) (cid : Nat) (nm : String) (now now' : Nat)
    (hwf : WF db)
    (h0 : db.teams.filter (fun t => t.class_id == cid && t.name == "Teachers") = []) :
    ∃ tt : Team,
      (get_or_create_teacher_student_record db cid nm now).2.teams.filter
          (fun t => t.class_id == cid && t.name == "Teachers") = [tt] ∧
      ((get_or_create_teacher_student_record db cid nm now).2.students.filter
          (fun s => s.team_id == tt.id && s.name == nm)).length = 1 ∧
      get_or_create_teacher_student_record
          (get_or_create_teacher_student_record db cid nm now).2 cid nm now' =
        ((get_or_create_teacher_student_record db cid nm now).1,
         (get_or_create_teacher_student_record db cid nm now).2) := by
  set tt : Team := ⟨db.nextId, "Teachers", cid, now⟩ with htt
  set dbA : DB := { db with teams := db.teams ++ [tt], nextId := db.nextId + 1 } with hdbA
  set st : Student :=
    ⟨dbA.nextId, nm, "teacher", hashSecret "teacher", tt.id, cid, false, none, none, now⟩
    with hst
  set db2 : DB := { dbA with students := dbA.students ++ [st], nextId := dbA.nextId + 1 }
    with hdb2
  have hT : ensureTeachersTeam db cid now = (tt, dbA) := by
    unfold ensureTeachersTeam
    rw [h0]
  have hSnil : dbA.students.filter (fun s => s.team_id == tt.id && s.name == nm) = [] := by
    apply List.filter_eq_nil_iff.mpr
    intro s hs
    have hlt : s.team_id < db.nextId := ((hwf.2.1) s hs).2
    simp [htt, Nat.ne_of_lt hlt]
  have hP : ensureTeacherProxy dbA tt.id cid nm now = (st, db2) := by
    unfold ensureTeacherProxy
    rw [hSnil]
  have h1 : get_or_create_teacher_student_record db cid nm now = (st, db2) := by
    show ensureTeacherProxy (ensureTeachersTeam db cid now).2
        (ensureTeachersTeam db cid now).1.id cid nm now = (st, db2)
    rw [hT]
    exact hP
  have hT2 : db2.teams.filter (fun t => t.class_id == cid && t.name == "Teachers") = [tt] := by
    have : db2.teams = db.teams ++ [tt] := rfl
    rw [this, List.filter_append, h0]
    simp [htt]
  have hS2 : db2.students.filter (fun s => s.team_id == tt.id && s.name == nm) = [st] := by
    have : db2.students = db.students ++ [st] := rfl
    rw [this, List.filter_append]
    have hnil : db.students.filter (fun s => s.team_id == tt.id && s.name == nm) = [] := by
      apply List.filter_eq_nil_iff.mpr
      intro s hs
      have hlt : s.team_id < db.nextId := ((hwf.2.1) s hs).2
      simp [htt, Nat.ne_of_lt hlt]
    rw [hnil]
    simp [hst]
  have h2 : get_or_create_teacher_student_record db2 cid nm now' = (st, db2) := by
    show ensureTeacherProxy (ensureTeachersTeam db2 cid now').2
        (ensureTeachersTeam db2 cid now').1.id cid nm now' = (st, db2)
    have hTT : ensureTeachersTeam db2 cid now' = (tt, db2) := by
      unfold ensureTeachersTeam
      rw [hT2]
    rw [hTT]
    unfold ensureTeacherProxy
    rw [hS2]
  refine ⟨tt, ?_, ?_, ?_⟩
  · rw [h1]
    exact hT2
  · rw [h1]
    rw [hS2]
    rfl
  · rw [h1]
    exact h2

/-- Concrete run of `teacher_bootstrap_idempotent` on a fresh class. -/
theorem teacher_bootstrap_idempotent_witness :
    ∃ tt : Team,
      (get_or_create_teacher_student_record ⟨[⟨1, "A"⟩], [], [], [], [], [], 10⟩ 1 "Dr. X" 0).2.teams.filter
          (fun t => t.class_id == 1 && t.name == "Teachers") = [tt] ∧
      ((get_or_create_teacher_student_record ⟨[⟨1, "A"⟩], [], [], [], [], [], 10⟩ 1 "Dr. X" 0).2.students.filter
          (fun s => s.team_id == tt.id && s.name == "Dr. X")).length = 1 ∧
      get_or_create_teacher_student_record
          (get_or_create_teacher_student_record ⟨[⟨1, "A"⟩], [], [], [], [], [], 10⟩ 1 "Dr. X" 0).2 1 "Dr. X" 7 =
        ((get_or_create_teacher_student_record ⟨[⟨1, "A"⟩], [], [], [], [], [], 10⟩ 1 "Dr. X" 0).1,
         (get_or_create_teacher_student_record ⟨[⟨1, "A"⟩], [], [], [], [], [], 10⟩ 1 "Dr. X" 0).2) :=
  teacher_bootstrap_idempotent ⟨[⟨1, "A"⟩], [], [], [], [], [], 10⟩ 1 "Dr. X" 0 7
    (by decide) (by decide)

/-! ## Claims C1 and C5: replacement semantics of `submit_evaluation`

The next block of lemmas characterises the store fields through the delete
phase, the parent insert, and the member-insert loop. -/

theorem deleteExisting_teams (ids : List Nat) (db : DB) :
    (deleteExisting db ids).teams = db.teams := by
  induction ids generalizing db with
  | nil => rfl
  | cons e rest ih => exact ih _

theorem deleteExisting_students (ids : List Nat) (db : DB) :
    (deleteExisting db ids).students = db.students := by
  induction ids generalizing db with
  | nil => rfl
  | cons e rest ih => exact ih _

theorem deleteExisting_nextId (ids : List Nat) (db : DB) :
    (deleteExisting db ids).nextId = db.nextId := by
  induction ids generalizing db with
  | nil => rfl
  | cons e rest ih => exact ih _

theorem deleteExisting_tevals (ids : List Nat) (db : DB) :
    (deleteExisting db ids).team_evaluations =
      db.team_evaluations.filter fun r => !(ids.contains r.id) := by
  induction ids generalizing db with
  | nil => simp [deleteExisting]
  | cons e rest ih =>
      show (deleteExisting _ rest).team_evaluations = _
      rw [ih]
      simp only [List.filter_filter]
      apply List.filter_congr
      intro r _
      simp only [List.contains_cons]
      rw [Bool.not_or]
      rw [Bool.and_comm]

theorem deleteExisting_mevals (ids : List Nat) (db : DB) :
    (deleteExisting db ids).member_evaluations =
      db.member_evaluations.filter fun m => !(ids.contains m.team_evaluation_id) := by
  induction ids generalizing db with
  | nil => simp [deleteExisting]
  | cons e rest ih =>
      show (deleteExisting _ rest).member_evaluations = _
      rw [ih]
      simp only [List.filter_filter]
      apply List.filter_congr
      intro m _
      simp only [List.contains_cons]
      rw [Bool.not_or]
      rw [Bool.and_comm]

theorem insertMembers_teams (mems : List (Nat × String × Int)) (db : DB) (pid now : Nat) :
    (insertMembers db pid mems now).teams = db.teams := by
  induction mems generalizing db with
  | nil => rfl
  | cons m rest ih =>
      obtain ⟨sid, c, sc⟩ := m
      exact ih _

theorem insertMembers_students (mems : List (Nat × String × Int)) (db : DB) (pid now : Nat) :
    (insertMembers db pid mems now).students = db.students := by
  induction mems generalizing db with
  | nil => rfl
  | cons m rest ih =>
      obtain ⟨sid, c, sc⟩ := m
      exact ih _

theorem insertMembers_tevals (mems : List (Nat × String × Int)) (db : DB) (pid now : Nat) :
    (insertMembers db pid mems now).team_evaluations = db.team_evaluations := by
  induction mems generalizing db with
  | nil => rfl
  | cons m rest ih =>
      obtain ⟨sid, c, sc⟩ := m
      exact ih _

theorem insertMembers_nextId (mems : List (Nat × String × Int)) (db : DB) (pid now : Nat) :
    (insertMembers db pid mems now).nextId = db.nextId + mems.length := by
  induction mems generalizing db with
  | nil => rfl
  | cons m rest ih =>
      obtain ⟨sid, c, sc⟩ := m
      show (insertMembers _ pid rest now).nextId = _
      rw [ih]
      simp only [List.length_cons]
      omega

theorem insertMembers_membersProj (mems : List (Nat × String × Int)) (db : DB)
    (pid now : Nat) :
    membersProj (insertMembers db pid mems now) pid = membersProj db pid ++ mems := by
  induction mems generalizing db with
  | nil => simp [insertMembers]
  | cons m rest ih =>
      obtain ⟨sid, c, sc⟩ := m
      show membersProj (insertMembers _ pid rest now) pid = _
      rw [ih]
      unfold membersProj
      simp [List.filter_append]

theorem insertMembers_membersProj_ne (mems : List (Nat × String × Int)) (db : DB)
    (pid now e : Nat) (hne : e ≠ pid) :
    membersProj (insertMembers db pid mems now) e = membersProj db e := by
  induction mems generalizing db with
  | nil => rfl
  | cons m rest ih =>
      obtain ⟨sid, c, sc⟩ := m
      show membersProj (insertMembers _ pid rest now) e = _
      rw [ih]
      unfold membersProj
      have hb : (pid == e) = false := by
        simp [Ne.symm hne]
      simp [List.filter_append, hb]

theorem deleteExisting_WF (ids : List Nat) (db : DB) (hwf : WF db) :
    WF (deleteExisting db ids) := by
  obtain ⟨h1, h2, h3, h4⟩ := hwf
  refine ⟨?_, ?_, ?_, ?_⟩
  · rw [deleteExisting_teams, deleteExisting_nextId]
    exact h1
  · rw [deleteExisting_students, deleteExisting_nextId]
    exact h2
  · rw [deleteExisting_tevals, deleteExisting_nextId]
    intro e he
    exact h3 e (List.mem_filter.mp he).1
  · rw [deleteExisting_mevals, deleteExisting_nextId]
    intro m hm
    exact h4 m (List.mem_filter.mp hm).1

theorem insertMembers_WF (mems : List (Nat × String × Int)) (db : DB) (pid now : Nat)
    (hwf : WF db) (hpid : pid < db.nextId) :
    WF (insertMembers db pid mems now) := by
  induction mems generalizing db with
  | nil => exact hwf
  | cons m rest ih =>
      obtain ⟨sid, c, sc⟩ := m
      show WF (insertMembers _ pid rest now)
      apply ih
      · obtain ⟨h1, h2, h3, h4⟩ := hwf
        refine ⟨?_, ?_, ?_, ?_⟩
        · intro t htm
          exact Nat.lt_succ_of_lt (h1 t htm)
        · intro s hs
          exact ⟨Nat.lt_succ_of_lt (h2 s hs).1, Nat.lt_succ_of_lt (h2 s hs).2⟩
        · intro e he
          exact Nat.lt_succ_of_lt (h3 e he)
        · intro mm hmm
          rcases List.mem_append.mp hmm with hmm | hmm
          · exact ⟨Nat.lt_succ_of_lt (h4 mm hmm).1, Nat.lt_succ_of_lt (h4 mm hmm).2⟩
          · obtain rfl := List.mem_singleton.mp hmm
            exact ⟨Nat.lt_succ_self _, Nat.lt_succ_of_lt hpid⟩
      · exact Nat.lt_succ_of_lt hpid

theorem insertMembers_orphanFree (mems : List (Nat × String × Int)) (db : DB)
    (pid now : Nat) (h : orphanFree db)
    (hp : ∃ e ∈ db.team_evaluations, e.id = pid) :
    orphanFree (insertMembers db pid mems now) := by
  induction mems generalizing db with
  | nil => exact h
  | cons m rest ih =>
      obtain ⟨sid, c, sc⟩ := m
      show orphanFree (insertMembers _ pid rest now)
      apply ih
      · intro mm hmm
        rcases List.mem_append.mp hmm with hmm | hmm
        · exact h mm hmm
        · obtain rfl := List.mem_singleton.mp hmm
          exact hp
      · exact hp

/-- The ids collected by the replacement query at src/app.py line 1041. -/
def replacedIds (db : DB) (p : SubmitPayload) (evid : Nat) : List Nat :=
  (tripleFilter db.team_evaluations p.assignment_id p.evaluated_team_id evid).map
    fun r => r.id

theorem submitReplace_pid (db : DB) (p : SubmitPayload) (evid now : Nat) :
    (submitReplace db p evid now).2.1 = db.nextId := by
  show (deleteExisting db (replacedIds db p evid)).nextId = db.nextId
  exact deleteExisting_nextId _ _

theorem submitReplace_fst_teams (db : DB) (p : SubmitPayload) (evid now : Nat) :
    (submitReplace db p evid now).1.teams = db.teams := by
  show (deleteExisting db (replacedIds db p evid)).teams = db.teams
  exact deleteExisting_teams _ _

theorem submitReplace_fst_students (db : DB) (p : SubmitPayload) (evid now : Nat) :
    (submitReplace db p evid now).1.students = db.students := by
  show (deleteExisting db (replacedIds db p evid)).students = db.students
  exact deleteExisting_students _ _

theorem submitReplace_fst_nextId (db : DB) (p : SubmitPayload) (evid now : Nat) :
    (submitReplace db p evid now).1.nextId = db.nextId + 1 := by
  show (deleteExisting db (replacedIds db p evid)).nextId + 1 = db.nextId + 1
  rw [deleteExisting_nextId]

theorem submitReplace_fst_mevals (db : DB) (p : SubmitPayload) (evid now : Nat) :
    (submitReplace db p evid now).1.member_evaluations =
      db.member_evaluations.filter
        (fun m => !((replacedIds db p evid).contains m.team_evaluation_id)) := by
  show (deleteExisting db (replacedIds db p evid)).member_evaluations = _
  exact deleteExisting_mevals _ _

theorem submitReplace_fst_tevals (db : DB) (p : SubmitPayload) (evid now : Nat) :
    (submitReplace db p evid now).1.team_evaluations =
      db.team_evaluations.filter (fun r => !((replacedIds db p evid).contains r.id)) ++
        [⟨db.nextId, p.assignment_id, p.evaluated_team_id, evid,
          p.team_comment, p.team_score, now⟩] := by
  show (deleteExisting db (replacedIds db p evid)).team_evaluations ++
      [⟨(deleteExisting db (replacedIds db p evid)).nextId, p.assignment_id,
        p.evaluated_team_id, evid, p.team_comment, p.team_score, now⟩] = _
  rw [deleteExisting_tevals, deleteExisting_nextId]

/-- The full write sequence of a successful submit: the replacement core
followed by the member-insert loop. -/
def submitWrite (db : DB) (p : SubmitPayload) (evid now : Nat) : DB :=
  insertMembers (submitReplace db p evid now).1 (submitReplace db p evid now).2.1
    p.member_evaluations now

theorem submitWrite_teams (db : DB) (p : SubmitPayload) (evid now : Nat) :
    (submitWrite db p evid now).teams = db.teams := by
  unfold submitWrite
  rw [insertMembers_teams, submitReplace_fst_teams]

theorem submitWrite_students (db : DB) (p : SubmitPayload) (evid now : Nat) :
    (submitWrite db p evid now).students = db.students := by
  unfold submitWrite
  rw [insertMembers_students, submitReplace_fst_students]

/-- After a successful submit, the rows matching the natural key are
exactly the one freshly inserted row carrying the payload's fields. -/
theorem submitWrite_tripleFilter (db : DB) (p : SubmitPayload) (evid now : Nat) :
    tripleFilter (submitWrite db p evid now).team_evaluations p.assignment_id
        p.evaluated_team_id evid =
      [⟨db.nextId, p.assignment_id, p.evaluated_team_id, evid,
        p.team_comment, p.team_score, now⟩] := by
  unfold submitWrite
  rw [insertMembers_tevals, submitReplace_fst_tevals]
  unfold tripleFilter
  rw [List.filter_append]
  have h1 : List.filter
      (fun e => e.assignment_id == p.assignment_id &&
        e.evaluated_team_id == p.evaluated_team_id && e.evaluator_student_id == evid)
      (db.team_evaluations.filter
        (fun r => !((replacedIds db p evid).contains r.id))) = [] := by
    apply List.filter_eq_nil_iff.mpr
    intro r hr hcontra
    obtain ⟨hr0, hnc⟩ := List.mem_filter.mp hr
    have hmem : r.id ∈ replacedIds db p evid := by
      unfold replacedIds
      exact List.mem_map_of_mem _ (List.mem_filter.mpr ⟨hr0, hcontra⟩)
    simp [hmem] at hnc
  rw [h1]
  simp

/-- After a successful submit, the member rows owned by the fresh
evaluation are exactly the payload's member entries. -/
theorem submitWrite_members (db : DB) (p : SubmitPayload) (evid now : Nat)
    (hwf : WF db) :
    membersProj (submitWrite db p evid now) db.nextId = p.member_evaluations := by
  unfold submitWrite
  rw [submitReplace_pid, insertMembers_membersProj]
  suffices h : membersProj (submitReplace db p evid now).1 db.nextId = [] by
    rw [h]
    simp
  unfold membersProj
  rw [submitReplace_fst_mevals]
  have h0 : List.filter (fun m => m.team_evaluation_id == db.nextId)
      (db.member_evaluations.filter
        (fun m => !((replacedIds db p evid).contains m.team_evaluation_id))) = [] := by
    apply List.filter_eq_nil_iff.mpr
    intro m hm hcontra
    have hm0 := (List.mem_filter.mp hm).1
    have hlt : m.team_evaluation_id < db.nextId := (hwf.2.2.2 m hm0).2
    rw [beq_iff_eq] at hcontra
    omega
  rw [h0]
  rfl

/-- After a successful submit, no member row references any of the replaced
(deleted) evaluation ids. -/
theorem submitWrite_members_replaced (db : DB) (p : SubmitPayload) (evid now : Nat)
    (hwf : WF db) (e : Nat) (he : e ∈ replacedIds db p evid) :
    membersProj (submitWrite db p evid now) e = [] := by
  have hlt : e < db.nextId := by
    unfold replacedIds at he
    obtain ⟨r, hr, rfl⟩ := List.mem_map.mp he
    exact hwf.2.2.1 r (List.mem_filter.mp hr).1
  unfold submitWrite
  rw [submitReplace_pid]
  rw [insertMembers_membersProj_ne _ _ _ _ _ (Nat.ne_of_lt hlt)]
  unfold membersProj
  rw [submitReplace_fst_mevals]
  have h0 : List.filter (fun m => m.team_evaluation_id == e)
      (db.member_evaluations.filter
        (fun m => !((replacedIds db p evid).contains m.team_evaluation_id))) = [] := by
    apply List.filter_eq_nil_iff.mpr
    intro m hm hcontra
    have hnc := (List.mem_filter.mp hm).2
    rw [beq_iff_eq] at hcontra
    rw [hcontra] at hnc
    simp [he] at hnc
  rw [h0]
  rfl

/-- A successful submit preserves the id-freshness invariant. -/
theorem submitWrite_WF (db : DB) (p : SubmitPayload) (evid now : Nat) (hwf : WF db) :
    WF (submitWrite db p evid now) := by
  unfold submitWrite
  apply insertMembers_WF
  · refine ⟨?_, ?_, ?_, ?_⟩
    · rw [submitReplace_fst_teams, submitReplace_fst_nextId]
      intro t htm
      exact Nat.lt_succ_of_lt (hwf.1 t htm)
    · rw [submitReplace_fst_students, submitReplace_fst_nextId]
      intro s hs
      exact ⟨Nat.lt_succ_of_lt (hwf.2.1 s hs).1, Nat.lt_succ_of_lt (hwf.2.1 s hs).2⟩
    · rw [submitReplace_fst_tevals, submitReplace_fst_nextId]
      intro e he
      rcases List.mem_append.mp he with he | he
      · exact Nat.lt_succ_of_lt (hwf.2.2.1 e (List.mem_filter.mp he).1)
      · obtain rfl := List.mem_singleton.mp he
        exact Nat.lt_succ_self _
    · rw [submitReplace_fst_mevals, submitReplace_fst_nextId]
      intro m hm
      have hm' := (List.mem_filter.mp hm).1
      exact ⟨Nat.lt_succ_of_lt (hwf.2.2.2 m hm').1,
             Nat.lt_succ_of_lt (hwf.2.2.2 m hm').2⟩
  · rw [submitReplace_pid, submitReplace_fst_nextId]
    exact Nat.lt_succ_self _

/-- A successful submit leaves no orphaned member rows: the prior bundle's
members are deleted before their parent, and the new members reference the
freshly inserted parent. -/
theorem submitWrite_orphanFree (db : DB) (p : SubmitPayload) (evid now : Nat)
    (h : orphanFree db) :
    orphanFree (submitWrite db p evid now) := by
  unfold submitWrite
  apply insertMembers_orphanFree
  · intro m hm
    rw [submitReplace_fst_mevals] at hm
    obtain ⟨hm0, hmc⟩ := List.mem_filter.mp hm
    obtain ⟨e, he, heq⟩ := h m hm0
    refine ⟨e, ?_, heq⟩
    rw [submitReplace_fst_tevals]
    apply List.mem_append_left
    apply List.mem_filter.mpr
    refine ⟨he, ?_⟩
    rw [heq]
    exact hmc
  · rw [submitReplace_fst_tevals, submitReplace_pid]
    exact ⟨⟨db.nextId, p.assignment_id, p.evaluated_team_id, evid,
            p.team_comment, p.team_score, now⟩,
           List.mem_append_right _ (List.mem_singleton.mpr rfl), rfl⟩

/-- On the student path with a resolving, non-Guests target team different
from the evaluator's own, `submit_evaluation` succeeds and performs exactly
the delete-insert-insert write sequence. -/
theorem submit_student_eq (db : DB) (sess : Session) (p : SubmitPayload) (now : Nat)
    (team : Team)
    (hrole : sess.role = .student)
    (hteam : db.teams.filter (fun t => t.id == p.evaluated_team_id) = [team])
    (hguest : team.name ≠ "Guests")
    (hown : sess.team_id ≠ some p.evaluated_team_id) :
    submit db sess p now = (.success, submitWrite db p sess.user_id now) := by
  have hpre : submitPre db sess p now = .ok (submitReplace db p sess.user_id now) := by
    unfold submitPre
    rw [hteam]
    have hnb : (team.name == "Guests") = false := by
      simp [hguest]
    have hsb : (sess.team_id == some p.evaluated_team_id) = false := by
      simp [hown]
    simp [hnb, hrole, hsb]
  unfold submit
  rw [hpre]
  rfl

/-- Claim C1 (confirmed): replacement semantics.  For a student evaluator,
after two successive successful submits for the same (assignment,
evaluator, evaluated-team) triple, exactly one `TeamEvaluation` row exists
for the triple — the second call's row, carrying the second payload's
comment and score — its `MemberEvaluation` rows are exactly the second
payload's entries, the first call's bundle has no member rows left (the
prior bundle was replaced delete-then-insert), and the store stays free of
orphaned member rows. -/
theorem submit_replace_exactly_one (db : DB) (sess : Session) (p1 p2 : SubmitPayload)
    (n1 n2 : Nat) (team : Team)
    (hwf : WF db) (horph : orphanFree db)
    (hrole : sess.role = .student)
    (hteam : db.teams.filter (fun t => t.id == p1.evaluated_team_id) = [team])
    (hguest : team.name ≠ "Guests")
    (hown : sess.team_id ≠ some p1.evaluated_team_id)
    (ha : p2.assignment_id = p1.assignment_id)
    (ht : p2.evaluated_team_id = p1.evaluated_team_id) :
    ∃ pid1 pid2 : Nat, pid1 ≠ pid2 ∧
      (submit db sess p1 n1).1 = .success ∧
      (submit (submit db sess p1 n1).2 sess p2 n2).1 = .success ∧
      tripleFilter (submit db sess p1 n1).2.team_evaluations p1.assignment_id
          p1.evaluated_team_id sess.user_id =
        [⟨pid1, p1.assignment_id, p1.evaluated_team_id, sess.user_id,
          p1.team_comment, p1.team_score, n1⟩] ∧
      tripleFilter (submit (submit db sess p1 n1).2 sess p2 n2).2.team_evaluations
          p1.assignment_id p1.evaluated_team_id sess.user_id =
        [⟨pid2, p1.assignment_id, p1.evaluated_team_id, sess.user_id,
          p2.team_comment, p2.team_score, n2⟩] ∧
      membersProj (submit (submit db sess p1 n1).2 sess p2 n2).2 pid2 =
        p2.member_evaluations ∧
      membersProj (submit (submit db sess p1 n1).2 sess p2 n2).2 pid1 = [] ∧
      orphanFree (submit (submit db sess p1 n1).2 sess p2 n2).2 := by
  have he1 : submit db sess p1 n1 = (.success, submitWrite db p1 sess.user_id n1) :=
    submit_student_eq db sess p1 n1 team hrole hteam hguest hown
  set db1 := submitWrite db p1 sess.user_id n1 with hdb1
  have hwf1 : WF db1 := submitWrite_WF db p1 sess.user_id n1 hwf
  have horph1 : orphanFree db1 := submitWrite_orphanFree db p1 sess.user_id n1 horph
  have hteam1 : db1.teams.filter (fun t => t.id == p2.evaluated_team_id) = [team] := by
    rw [hdb1, submitWrite_teams, ht]
    exact hteam
  have hown1 : sess.team_id ≠ some p2.evaluated_team_id := by
    rw [ht]
    exact hown
  have he2 : submit db1 sess p2 n2 = (.success, submitWrite db1 p2 sess.user_id n2) :=
    submit_student_eq db1 sess p2 n2 team hrole hteam1 hguest hown1
  have tf1 : tripleFilter db1.team_evaluations p1.assignment_id p1.evaluated_team_id
      sess.user_id = [⟨db.nextId, p1.assignment_id, p1.evaluated_team_id, sess.user_id,
      p1.team_comment, p1.team_score, n1⟩] := by
    rw [hdb1]
    exact submitWrite_tripleFilter db p1 sess.user_id n1
  have tf2 : tripleFilter (submitWrite db1 p2 sess.user_id n2).team_evaluations
      p1.assignment_id p1.evaluated_team_id sess.user_id =
      [⟨db1.nextId, p1.assignment_id, p1.evaluated_team_id, sess.user_id,
        p2.team_comment, p2.team_score, n2⟩] := by
    have h := submitWrite_tripleFilter db1 p2 sess.user_id n2
    rw [ha, ht] at h
    exact h
  have hm2 : membersProj (submitWrite db1 p2 sess.user_id n2) db1.nextId =
      p2.member_evaluations := submitWrite_members db1 p2 sess.user_id n2 hwf1
  have hrep : replacedIds db1 p2 sess.user_id = [db.nextId] := by
    unfold replacedIds
    rw [ha, ht, tf1]
    rfl
  have hm1 : membersProj (submitWrite db1 p2 sess.user_id n2) db.nextId = [] := by
    apply submitWrite_members_replaced db1 p2 sess.user_id n2 hwf1
    rw [hrep]
    exact List.mem_singleton.mpr rfl
  have horph2 : orphanFree (submitWrite db1 p2 sess.user_id n2) :=
    submitWrite_orphanFree db1 p2 sess.user_id n2 horph1
  have hne : db.nextId ≠ db1.nextId := by
    have hmemtf : (⟨db.nextId, p1.assignment_id, p1.evaluated_team_id, sess.user_id,
        p1.team_comment, p1.team_score, n1⟩ : TeamEvaluation) ∈
        tripleFilter db1.team_evaluations p1.assignment_id p1.evaluated_team_id
          sess.user_id := by
      rw [tf1]
      exact List.mem_singleton.mpr rfl
    unfold tripleFilter at hmemtf
    have hmemrow := (List.mem_filter.mp hmemtf).1
    exact Nat.ne_of_lt (hwf1.2.2.1 _ hmemrow)
  refine ⟨db.nextId, db1.nextId, hne, ?_, ?_, ?_, ?_, ?_, ?_, ?_⟩
  · simp only [he1]
  · simp only [he1, he2]
  · simp only [he1]
    exact tf1
  · simp only [he1, he2]
    exact tf2
  · simp only [he1, he2]
    exact hm2
  · simp only [he1, he2]
    exact hm1
  · simp only [he1, he2]
    exact horph2

/-- Store, session and payloads for the C1 witness and the C5 theorem:
class 1 with team 2 ("TeamB"), a student evaluator (id 10) from team 1. -/
def dbSingleTeam : DB := ⟨[⟨1, "A"⟩], [], [⟨2, "TeamB", 1, 0⟩], [], [], [], 100⟩

/-- Student session used by the C1 witness and the C5 theorem. -/
def sessStudent : Session := ⟨10, .student, "S", some 1, some 1, 0⟩

/-- Payload with two member evaluations, used by the C5 theorem. -/
def pTwoMembers : SubmitPayload := ⟨5, 2, "great", 4, [(20, "x", 5), (21, "y", 4)]⟩

/-- Concrete run of `submit_replace_exactly_one`: two submits by student 10
against team 2 for assignment 5 with different payloads. -/
theorem submit_replace_exactly_one_witness :
    ∃ pid1 pid2 : Nat, pid1 ≠ pid2 ∧
      (submit dbSingleTeam sessStudent ⟨5, 2, "a", 3, [(20, "x", 5)]⟩ 0).1 = .success ∧
      (submit (submit dbSingleTeam sessStudent ⟨5, 2, "a", 3, [(20, "x", 5)]⟩ 0).2
        sessStudent ⟨5, 2, "b", 4, [(21, "y", 1), (22, "z", 2)]⟩ 1).1 = .success ∧
      tripleFilter (submit dbSingleTeam sessStudent
          ⟨5, 2, "a", 3, [(20, "x", 5)]⟩ 0).2.team_evaluations 5 2 10 =
        [⟨pid1, 5, 2, 10, "a", 3, 0⟩] ∧
      tripleFilter (submit (submit dbSingleTeam sessStudent
          ⟨5, 2, "a", 3, [(20, "x", 5)]⟩ 0).2
          sessStudent ⟨5, 2, "b", 4, [(21, "y", 1), (22, "z", 2)]⟩ 1).2.team_evaluations
          5 2 10 =
        [⟨pid2, 5, 2, 10, "b", 4, 1⟩] ∧
      membersProj (submit (submit dbSingleTeam sessStudent
          ⟨5, 2, "a", 3, [(20, "x", 5)]⟩ 0).2
          sessStudent ⟨5, 2, "b", 4, [(21, "y", 1), (22, "z", 2)]⟩ 1).2 pid2 =
        [(21, "y", 1), (22, "z", 2)] ∧
      membersProj (submit (submit dbSingleTeam sessStudent
          ⟨5, 2, "a", 3, [(20, "x", 5)]⟩ 0).2
          sessStudent ⟨5, 2, "b", 4, [(21, "y", 1), (22, "z", 2)]⟩ 1).2 pid1 = [] ∧
      orphanFree (submit (submit dbSingleTeam sessStudent
          ⟨5, 2, "a", 3, [(20, "x", 5)]⟩ 0).2
          sessStudent ⟨5, 2, "b", 4, [(21, "y", 1), (22, "z", 2)]⟩ 1).2 :=
  submit_replace_exactly_one dbSingleTeam sessStudent ⟨5, 2, "a", 3, [(20, "x", 5)]⟩
    ⟨5, 2, "b", 4, [(21, "y", 1), (22, "z", 2)]⟩ 0 1 ⟨2, "TeamB", 1, 0⟩
    (by decide) (by decide) rfl (by decide) (by decide) (by decide) rfl rfl

/-- Claim C5 (code bug): the code inserts the owning `team_evaluations` row
FIRST and the member rows afterwards (src/app.py lines 1052-1072), so a
failure between those calls leaves the parent visible to readers as a
complete submission.  `(submitReplace …).1` is exactly the store state
after the parent insert — where a mid-sequence failure (e.g. a store
timeout on the first member insert) strands the data: the existence probe
`check_evaluation_exists` already answers true while zero of the two
member evaluations are present; only the full run stores them. -/
theorem submit_partial_bundle_visible :
    submitPre dbSingleTeam sessStudent pTwoMembers 0 =
      .ok (submitReplace dbSingleTeam pTwoMembers 10 0) ∧
    existsCheck (submitReplace dbSingleTeam pTwoMembers 10 0).1 5 2 10 = true ∧
    membersProj (submitReplace dbSingleTeam pTwoMembers 10 0).1 100 = [] ∧
    pTwoMembers.member_evaluations.length = 2 ∧
    membersProj (submit dbSingleTeam sessStudent pTwoMembers 0).2 100 =
      pTwoMembers.member_evaluations :=
  ⟨rfl, rfl, rfl, rfl, rfl⟩

end PeerEval
